import Mathlib

/-!
Verification of the follow-state synchronization core of the `maple`
follow/unfollow UI slice.

The embedding models:
* the Firestore fragment `/users/{uid}/activeTopicSubscriptions/{docId}`
  as a list of entries keyed by `(owner, docId)` (`Store`, `setDoc`,
  `deleteDoc`, `lookupDoc`), with upsert/delete semantics of
  `setDoc`/`deleteDoc` from `firebase/firestore`;
* `FollowingQueries.tsx` (`followTopic`, `unfollowTopic`, `TopicQuery`);
* the shared `FollowContext` cache `followStatus : topicKey -> boolean`
  (`Cache`, `setEntry`), where a JS object-spread update
  `{...prev, [topicName]: v}` is the keyed update `setEntry`, and reading
  `followStatus[topicName]` with JS truthiness is `isFollowingTruthy`
  (`undefined` and `false` are both falsy);
* `FollowButton.tsx`: the mount-query result application
  (`applyTopicQueryResult`, `Boolean(result)` of a `TopicQuery` string is
  `result != ""`), the `toggleFollow` handler (parametric in the
  `onFollow`/`onUnfollow` props exactly as `BaseFollowButton` is), its two
  concrete instantiations `FollowUserButton`/`FollowBillButton`
  (`toggleFollowUser`, `toggleFollowBill`), the confirmation-dialog state
  machine (`buttonStep`) and the rendered control (`renderFollowButton`);
* `FollowersTab.tsx` (`fetchFollowers` with its try/catch,
  `followersTabItems`), the collection-group followers tab variant
  (`renderedFollowers`), and `FollowingTab.tsx`'s state transitions
  (`followingTabStep`).
-/

namespace Maple

inductive TopicType where
  | bill
  | testimony
deriving DecidableEq

inductive LookupData where
  | billLookup (billId : String) (court : Nat)
  | userLookup (profileId : String)
deriving DecidableEq

/-- Fields of a document written under `activeTopicSubscriptions`.
`followTopic` spreads `{ type, uid, topicName, ...data }`; `uid` is
`string | undefined` in the source, hence `Option String`; documents
written elsewhere may lack a `topicName` field, hence `Option String`. -/
structure SubscriptionDoc where
  type : TopicType
  uid : Option String
  topicName : Option String
  lookup : LookupData
deriving DecidableEq

/-- One Firestore document: collection owner (the user id segment of the
path), document id, and field data. -/
structure StoreEntry where
  owner : String
  docId : String
  doc : SubscriptionDoc
deriving DecidableEq

abbrev Store := List StoreEntry

/-- The user-id path segment of `setSubscriptionRef(uid)`: the template
string `/users/${uid}/...` stringifies `undefined` to `"undefined"`. -/
def pathOwner : Option String → String
  | some u => u
  | none => "undefined"

def entryAt (owner docId : String) (e : StoreEntry) : Bool :=
  e.owner == owner && e.docId == docId

/-- `setDoc(doc(ref, docId), fields)`: upsert at `(owner, docId)`. -/
def setDoc (store : Store) (owner docId : String) (d : SubscriptionDoc) : Store :=
  store.filter (fun e => !(entryAt owner docId e)) ++ [⟨owner, docId, d⟩]

/-- `deleteDoc(doc(ref, docId))`: idempotent delete at `(owner, docId)`. -/
def deleteDoc (store : Store) (owner docId : String) : Store :=
  store.filter (fun e => !(entryAt owner docId e))

/-- The document currently stored at `(owner, docId)`, if any. -/
def lookupDoc (store : Store) (owner docId : String) : Option SubscriptionDoc :=
  ((store.filter (entryAt owner docId)).getLast?).map StoreEntry.doc

/-- Argument record of `followTopic` (`FollowTopicData`). -/
structure FollowTopicData where
  type : TopicType
  uid : Option String
  topicName : String
  data : LookupData

/-- `followTopic`: `setDoc(doc(subscriptionRef, topicName), {...props, ...data})`. -/
def followTopic (store : Store) (d : FollowTopicData) : Store :=
  setDoc store (pathOwner d.uid) d.topicName ⟨d.type, d.uid, some d.topicName, d.data⟩

/-- `unfollowTopic`: `deleteDoc(doc(subscriptionRef, topicName))`. -/
def unfollowTopic (store : Store) (uid : Option String) (topicName : String) : Store :=
  deleteDoc store (pathOwner uid) topicName

/-- `TopicQuery`: starts from `result = ""`, queries the user's
subscription collection `where("topicName", "==", topicName)` and, for
each matching document, assigns `result = doc.data().topicName`. -/
def TopicQuery (store : Store) (uid : Option String) (topicName : String) : String :=
  (store.filter
    (fun e => e.owner == pathOwner uid && e.doc.topicName == some topicName)).foldl
    (fun _ e => e.doc.topicName.getD "") ""

/-- The shared `FollowContext` map `followStatus`: absent key = the
status of that topic is still unknown. -/
abbrev Cache := String → Option Bool

def emptyCache : Cache := fun _ => none

/-- Object-spread update `{...prev, [k]: v}`: keyed partial update. -/
def setEntry (c : Cache) (k : String) (v : Bool) : Cache :=
  fun k2 => if k2 = k then some v else c k2

/-- JS truthiness of `followStatus[topicName]`: `undefined` is falsy. -/
def isFollowingTruthy (c : Cache) (t : String) : Bool :=
  (c t).getD false

/-- Shared mutable state visible to the follow buttons: the subscription
store and the `FollowContext` cache. -/
structure World where
  store : Store
  cache : Cache

/-- Application of a resolved mount query in `BaseFollowButton`:
`setFollowStatus(prev => ({...prev, [topicName]: Boolean(result)}))`,
where `result` is the `TopicQuery` string and `Boolean("") = false`. -/
def applyTopicQueryResult (c : Cache) (t : String) (result : String) : Cache :=
  setEntry c t (result != "")

/-- `toggleFollow` of `BaseFollowButton`, parametric in the
`onFollow`/`onUnfollow` props (modelled as store effects): on the
falsy branch run `onFollow` then cache `true`, otherwise run
`onUnfollow` then cache `false`. -/
def toggleFollow (t : String) (onFollow onUnfollow : Store → Store) (w : World) : World :=
  if isFollowingTruthy w.cache t then
    ⟨onUnfollow w.store, setEntry w.cache t false⟩
  else
    ⟨onFollow w.store, setEntry w.cache t true⟩

/-- Topic key of `FollowUserButton`: `testimony-${profileId}`. -/
def userTopicName (profileId : String) : String := "testimony-" ++ profileId

/-- Topic key of `FollowBillButton`: `bill-${court}-${billId}`. -/
def billTopicName (court : Nat) (billId : String) : String :=
  "bill-" ++ toString court ++ "-" ++ billId

def followHandler (d : FollowTopicData) : Store → Store := fun s => followTopic s d

def unfollowHandler (uid : Option String) (t : String) : Store → Store :=
  fun s => unfollowTopic s uid t

/-- `FollowUserButton`'s toggle: `BaseFollowButton.toggleFollow` wired to
`followTopic({type:"testimony", uid, topicName, data:{userLookup:{profileId}}})`
and `unfollowTopic(uid, topicName)`. No `uid` check happens anywhere on
this path. -/
def toggleFollowUser (uid : Option String) (profileId : String) (w : World) : World :=
  toggleFollow (userTopicName profileId)
    (followHandler ⟨.testimony, uid, userTopicName profileId, .userLookup profileId⟩)
    (unfollowHandler uid (userTopicName profileId)) w

/-- `FollowBillButton`'s toggle: `BaseFollowButton.toggleFollow` wired to
`followTopic({type:"bill", uid, topicName, data:{billLookup:{billId, court}}})`
and `unfollowTopic(uid, topicName)`. -/
def toggleFollowBill (uid : Option String) (court : Nat) (billId : String) (w : World) : World :=
  toggleFollow (billTopicName court billId)
    (followHandler ⟨.bill, uid, billTopicName court billId, .billLookup billId court⟩)
    (unfollowHandler uid (billTopicName court billId)) w

/-- Confirmation props of `BaseFollowButton` (`undefined` folded to `false`). -/
structure ButtonProps where
  confirmFollow : Bool
  confirmUnfollow : Bool

/-- `wantsConfirm = isFollowing ? confirmUnfollow : confirmFollow`. -/
def wantsConfirm (p : ButtonProps) (c : Cache) (t : String) : Bool :=
  if isFollowingTruthy c t then p.confirmUnfollow else p.confirmFollow

/-- Component-local UI state of `BaseFollowButton`: shared world plus the
`showModal` flag. -/
structure ButtonUIState where
  world : World
  showModal : Bool

inductive ButtonEvent where
  | activate
  | confirmModal
  | denyModal

/-- Event step of `BaseFollowButton`: the button's `onClick` either opens
the modal (`wantsConfirm`) or toggles; the modal's `onConfirm` toggles and
closes (only reachable while shown); `onDeny` just closes. -/
def buttonStep (p : ButtonProps) (t : String) (onF onU : Store → Store) :
    ButtonEvent → ButtonUIState → ButtonUIState
  | .activate, s =>
    if wantsConfirm p s.world.cache t then { s with showModal := true }
    else { s with world := toggleFollow t onF onU s.world }
  | .confirmModal, s =>
    if s.showModal then ⟨toggleFollow t onF onU s.world, false⟩ else s
  | .denyModal, s => { s with showModal := false }

/-- Observable content of the rendered follow control: the translation
key of its label and whether the check image is shown. -/
structure ButtonView where
  label : String
  showCheck : Bool
deriving DecidableEq

/-- Rendered output of `BaseFollowButton`'s control: nothing when `hide`,
otherwise label `button.follow.following`/`button.follow.follow` and the
check image exactly when `isFollowing` is truthy. -/
def renderFollowButton (c : Cache) (t : String) (hide : Bool) : Option ButtonView :=
  if hide then none
  else
    some ⟨(if isFollowingTruthy c t then "button.follow.following" else "button.follow.follow"),
          isFollowingTruthy c t⟩

/-- `UserItem` of `FollowButton.tsx`. -/
structure UserItem where
  profileId : String
  fullName : Option String
deriving DecidableEq

/-- `BillItem` of `FollowButton.tsx`. -/
structure BillItem where
  court : Nat
  billId : String
deriving DecidableEq

/-- Component state of `FollowersTab.tsx`: the `followerIds` list state
and the value last passed to the `setFollowerCount` prop (`none` = the
setter was never invoked). -/
structure FollowersTabState where
  followerIds : List String
  followerCount : Option Nat
deriving DecidableEq

def initFollowersTab : FollowersTabState := ⟨[], none⟩

/-- `fetchFollowers` of `FollowersTab.tsx`: on a resolved RPC it stores
`response.data` and calls `setFollowerCount(response.data.length)`; a
rejection is caught (`console.error` + `return`), leaving the state
untouched. The function is total: no exception escapes. -/
def fetchFollowers (resp : Except String (List String)) (s : FollowersTabState) :
    FollowersTabState :=
  match resp with
  | .ok data => ⟨data, some data.length⟩
  | .error _ => s

/-- Items handed to `UsersCard`: `followerIds.map(profileId => ({profileId}))`. -/
def followersTabItems (s : FollowersTabState) : List UserItem :=
  s.followerIds.map (fun p => ⟨p, none⟩)

/-- A follower element of the collection-group `FollowersTab` variant. -/
structure UserElement where
  profileId : String
deriving DecidableEq

/-- Rendered rows of the collection-group `FollowersTab`: each follower
element paired with `alreadyFollowing = iFollowSet.has(element.profileId)`,
combining the two independently fetched query results client-side. -/
def renderedFollowers (followers : List UserElement) (iFollowSet : List String) :
    List (UserElement × Bool) :=
  followers.map (fun e => (e, iFollowSet.contains e.profileId))

/-- Component state of `FollowingTab.tsx`. -/
structure FollowingTabState where
  billsFollowing : List BillItem
  usersFollowing : List UserItem
deriving DecidableEq

/-- Completion events of `FollowingTab`. A query invocation is a
`useCallback` closure: its emptiness guard reads the list value captured
at the render that created the callback, not the state at response time,
so each completion carries both the captured list and the fetched list.
The dep-less mount effect re-invokes the callbacks on every render, so
several invocations with different captured lists can be in flight. -/
inductive FollowingTabEvent where
  | billsQueryDone (captured : List BillItem) (fetched : List BillItem)
  | usersQueryDone (captured : List UserItem) (fetched : List UserItem)
  | unfollowBill
  | unfollowUser

/-- State transitions of `FollowingTab`: a completed query applies its
list under `captured.length === 0 && fetched.length != 0`, where
`captured` is the closure-captured list of the invocation, replacing the
current list with `fetched`; the `onUnfollow` handlers reset the
corresponding list to `[]`. These four are the only call sites of the
two state setters in the component. -/
def followingTabStep : FollowingTabEvent → FollowingTabState → FollowingTabState
  | .billsQueryDone cap f, s =>
    if cap.length == 0 && f.length != 0 then { s with billsFollowing := f } else s
  | .usersQueryDone cap f, s =>
    if cap.length == 0 && f.length != 0 then { s with usersFollowing := f } else s
  | .unfollowBill, s => { s with billsFollowing := [] }
  | .unfollowUser, s => { s with usersFollowing := [] }

/-! Helper lemmas about the store. -/

theorem filter_not_filter {α : Type} (p : α → Bool) (l : List α) :
    (l.filter (fun e => !(p e))).filter p = [] := by
  induction l with
  | nil => rfl
  | cons e tl ih =>
    by_cases h : p e <;> simp [List.filter_cons, h, ih]

theorem filter_filter_of_imp {α : Type} (p q : α → Bool) (l : List α)
    (h : ∀ e, p e = true → q e = true) : (l.filter q).filter p = l.filter p := by
  induction l with
  | nil => rfl
  | cons e tl ih =>
    by_cases hp : p e
    · have hq := h e hp
      simp [List.filter_cons, hp, hq, ih]
    · by_cases hq : q e <;> simp [List.filter_cons, hp, hq, ih]

theorem lookupDoc_deleteDoc (s : Store) (o i : String) :
    lookupDoc (deleteDoc s o i) o i = none := by
  simp [lookupDoc, deleteDoc, filter_not_filter]

theorem lookupDoc_setDoc_self (s : Store) (o i : String) (d : SubscriptionDoc) :
    lookupDoc (setDoc s o i d) o i = some d := by
  simp [lookupDoc, setDoc, List.filter_append, filter_not_filter, entryAt]

theorem lookupDoc_setDoc_other (s : Store) (o2 i2 o i : String) (d : SubscriptionDoc)
    (h : ¬(o = o2 ∧ i = i2)) :
    lookupDoc (setDoc s o2 i2 d) o i = lookupDoc s o i := by
  have h1 : entryAt o i (⟨o2, i2, d⟩ : StoreEntry) = false := by
    simp only [entryAt, Bool.and_eq_false_iff, beq_eq_false_iff_ne, ne_eq]
    by_cases ho : o2 = o
    · subst ho
      right
      intro hi
      exact h ⟨rfl, hi.symm⟩
    · exact Or.inl ho
  have h2 : ∀ x : StoreEntry, entryAt o i x = true → (!(entryAt o2 i2 x)) = true := by
    intro x hx
    simp only [entryAt, Bool.and_eq_true, beq_iff_eq] at hx
    simp only [entryAt, Bool.not_eq_true', Bool.and_eq_false_iff, beq_eq_false_iff_ne, ne_eq]
    by_cases ho : x.owner = o2
    · right
      intro hi
      exact h ⟨hx.1.symm.trans ho, hx.2.symm.trans hi⟩
    · exact Or.inl ho
  simp [lookupDoc, setDoc, List.filter_append, h1, filter_filter_of_imp _ _ _ h2]

theorem isFollowingTruthy_setEntry_self (c : Cache) (t : String) (v : Bool) :
    isFollowingTruthy (setEntry c t v) t = v := by
  simp [isFollowingTruthy, setEntry]

/-! Claim theorems. -/

/-- C1 (code evaluated at the failing trace): `BaseFollowButton` applies a
mount-query response with no sequencing guard, so a status query issued
(and whose store read happened) strictly before a toggle overwrites the
toggle's cache entry when its response arrives afterwards. Trace: the user
"u1" is not following `testimony-u2`; the initial query reads the store
(result `""`); the user toggles follow (store gains the record, cache goes
to `true`); the stale response is then applied and the cache ends at
`false`, contradicting the most recent toggle. -/
theorem staleQueryOverwritesToggle :
    (toggleFollowUser (some "u1") "u2" ⟨[], emptyCache⟩).cache (userTopicName "u2")
      = some true
    ∧ lookupDoc (toggleFollowUser (some "u1") "u2" ⟨[], emptyCache⟩).store "u1"
        (userTopicName "u2") ≠ none
    ∧ applyTopicQueryResult (toggleFollowUser (some "u1") "u2" ⟨[], emptyCache⟩).cache
        (userTopicName "u2") (TopicQuery ([] : Store) (some "u1") (userTopicName "u2"))
        (userTopicName "u2")
      = some false := by
  refine ⟨by decide, by decide, by decide⟩

/-- C2: for any topic key `t` and authenticated follower `uid`, a
successful follow toggle followed by a successful unfollow toggle (the
shared wiring of `FollowUserButton`/`FollowBillButton`) leaves no store
record at `(uid, t)` and caches `t` as not-following. -/
theorem follow_then_unfollow_clears (uid t : String) (d : FollowTopicData) (w : World)
    (hUid : d.uid = some uid) (hT : d.topicName = t)
    (h : isFollowingTruthy w.cache t = false) :
    lookupDoc (toggleFollow t (followHandler d) (unfollowHandler (some uid) t)
      (toggleFollow t (followHandler d) (unfollowHandler (some uid) t) w)).store uid t = none
    ∧ (toggleFollow t (followHandler d) (unfollowHandler (some uid) t)
      (toggleFollow t (followHandler d) (unfollowHandler (some uid) t) w)).cache t
        = some false := by
  constructor
  · simp [toggleFollow, h, isFollowingTruthy_setEntry_self, unfollowHandler, unfollowTopic,
      pathOwner, lookupDoc_deleteDoc]
  · simp [toggleFollow, h, isFollowingTruthy_setEntry_self, setEntry]

theorem follow_then_unfollow_clears_witness :
    let d : FollowTopicData :=
      ⟨TopicType.testimony, some "u1", "testimony-u2", LookupData.userLookup "u2"⟩
    let w2 := toggleFollow "testimony-u2" (followHandler d)
      (unfollowHandler (some "u1") "testimony-u2")
      (toggleFollow "testimony-u2" (followHandler d)
        (unfollowHandler (some "u1") "testimony-u2") ⟨[], emptyCache⟩)
    lookupDoc w2.store "u1" "testimony-u2" = none
      ∧ w2.cache "testimony-u2" = some false :=
  follow_then_unfollow_clears "u1" "testimony-u2"
    ⟨TopicType.testimony, some "u1", "testimony-u2", LookupData.userLookup "u2"⟩
    ⟨[], emptyCache⟩ rfl rfl rfl

/-- C3: when the confirmation flag for the current direction is set
(`confirmUnfollow` while following, `confirmFollow` otherwise), activating
the control only opens the modal, and denying only closes it: the store
and the status cache are exactly as before. -/
theorem confirm_deny_frame (p : ButtonProps) (t : String) (onF onU : Store → Store)
    (s : ButtonUIState) (h : wantsConfirm p s.world.cache t = true) :
    (buttonStep p t onF onU ButtonEvent.activate s).world = s.world
    ∧ (buttonStep p t onF onU ButtonEvent.denyModal
        (buttonStep p t onF onU ButtonEvent.activate s)).world = s.world := by
  constructor <;> simp [buttonStep, h]

theorem confirm_deny_frame_witness :
    let s : ButtonUIState := ⟨⟨[], emptyCache⟩, false⟩
    (buttonStep ⟨true, true⟩ "testimony-u2" id id ButtonEvent.activate s).world = s.world
    ∧ (buttonStep ⟨true, true⟩ "testimony-u2" id id ButtonEvent.denyModal
        (buttonStep ⟨true, true⟩ "testimony-u2" id id ButtonEvent.activate s)).world
          = s.world :=
  confirm_deny_frame ⟨true, true⟩ "testimony-u2" id id ⟨⟨[], emptyCache⟩, false⟩ rfl

/-- C4 (code evaluated at the failing input): with no authenticated
session (`uid` absent) and no confirmation configured, activating
`FollowUserButton`'s toggle still runs `followTopic` with `uid` undefined,
writing a subscription document under the literal path segment
`"undefined"` — the store write is attempted, not suppressed. -/
theorem unauthenticated_toggle_writes_store :
    (toggleFollowUser none "u2" ⟨[], emptyCache⟩).store
      = [⟨"undefined", "testimony-u2",
          ⟨TopicType.testimony, none, some "testimony-u2", LookupData.userLookup "u2"⟩⟩] := by
  decide

/-- C5: two buttons for the same topic each issuing the initial status
query against the same store state write the same value into the shared
cache, so after both responses are applied — in either order — the cache
entry both buttons read is the same boolean, namely whether `TopicQuery`
found the subscription. -/
theorem shared_status_order_independent (store : Store) (u t : String) (c : Cache)
    (r1 r2 : String)
    (h1 : r1 = TopicQuery store (some u) t) (h2 : r2 = TopicQuery store (some u) t) :
    applyTopicQueryResult (applyTopicQueryResult c t r1) t r2 t
      = applyTopicQueryResult (applyTopicQueryResult c t r2) t r1 t
    ∧ applyTopicQueryResult (applyTopicQueryResult c t r1) t r2 t
      = some (TopicQuery store (some u) t != "") := by
  subst h1
  subst h2
  constructor <;> simp [applyTopicQueryResult, setEntry]

theorem shared_status_order_independent_witness :
    let st : Store := [⟨"u1", "testimony-u2",
      ⟨TopicType.testimony, some "u1", some "testimony-u2", LookupData.userLookup "u2"⟩⟩]
    let r := TopicQuery st (some "u1") "testimony-u2"
    applyTopicQueryResult (applyTopicQueryResult emptyCache "testimony-u2" r) "testimony-u2" r
        "testimony-u2"
      = applyTopicQueryResult (applyTopicQueryResult emptyCache "testimony-u2" r)
          "testimony-u2" r "testimony-u2"
    ∧ applyTopicQueryResult (applyTopicQueryResult emptyCache "testimony-u2" r) "testimony-u2" r
        "testimony-u2"
      = some (TopicQuery st (some "u1") "testimony-u2" != "") :=
  shared_status_order_independent _ "u1" "testimony-u2" emptyCache _ _ rfl rfl

/-- C6: an authenticated user `u` following the bill with court `193` and
bill id `"H100"` writes exactly one store record, keyed
`bill-193-H100` under the user's collection, whose payload carries
`billLookup {billId: "H100", court: 193}`; every other `(owner, docId)`
slot is untouched, and the status cache maps `bill-193-H100` to `true`. -/
theorem follow_bill_h100 (u o i : String) (w : World)
    (h : isFollowingTruthy w.cache "bill-193-H100" = false)
    (hoi : ¬(o = u ∧ i = "bill-193-H100")) :
    lookupDoc (toggleFollowBill (some u) 193 "H100" w).store u "bill-193-H100"
      = some ⟨TopicType.bill, some u, some "bill-193-H100", LookupData.billLookup "H100" 193⟩
    ∧ (toggleFollowBill (some u) 193 "H100" w).cache "bill-193-H100" = some true
    ∧ lookupDoc (toggleFollowBill (some u) 193 "H100" w).store o i = lookupDoc w.store o i := by
  have ht : billTopicName 193 "H100" = "bill-193-H100" := rfl
  refine ⟨?_, ?_, ?_⟩
  · simp [toggleFollowBill, ht, toggleFollow, h, followHandler, followTopic, pathOwner,
      lookupDoc_setDoc_self]
  · simp [toggleFollowBill, ht, toggleFollow, h, setEntry]
  · simp only [toggleFollowBill, ht, toggleFollow, h, Bool.false_eq_true, if_false,
      followHandler, followTopic, pathOwner]
    exact lookupDoc_setDoc_other w.store u "bill-193-H100" o i _ hoi

theorem follow_bill_h100_witness :
    lookupDoc (toggleFollowBill (some "u1") 193 "H100" ⟨[], emptyCache⟩).store "u1"
        "bill-193-H100"
      = some ⟨TopicType.bill, some "u1", some "bill-193-H100", LookupData.billLookup "H100" 193⟩
    ∧ (toggleFollowBill (some "u1") 193 "H100" ⟨[], emptyCache⟩).cache "bill-193-H100"
        = some true
    ∧ lookupDoc (toggleFollowBill (some "u1") 193 "H100" ⟨[], emptyCache⟩).store "u2"
        "testimony-u3"
      = lookupDoc ([] : Store) "u2" "testimony-u3" :=
  follow_bill_h100 "u1" "u2" "testimony-u3" ⟨[], emptyCache⟩ rfl (by decide)

/-- C7 counterexample: while the status of `testimony-u9` is unknown (no
cache entry), `BaseFollowButton` renders neither nothing nor a neutral
label — its output is exactly the not-following rendering (label
`button.follow.follow`, no check image). -/
theorem unknown_renders_as_not_following :
    renderFollowButton emptyCache "testimony-u9" false ≠ none
    ∧ renderFollowButton emptyCache "testimony-u9" false
      = renderFollowButton (setEntry emptyCache "testimony-u9" false) "testimony-u9" false := by
  refine ⟨by decide, by decide⟩

/-- C7 (amended): while the status of a topic is unknown, the control
never claims the following state — no `button.follow.following` label and
no check image — but it does not render nothing or a distinct neutral
label either: its output coincides with the not-following rendering. -/
theorem unknown_never_claims_following (c : Cache) (t : String) (h : c t = none) :
    renderFollowButton c t false = renderFollowButton (setEntry c t false) t false
    ∧ renderFollowButton c t false ≠ renderFollowButton (setEntry c t true) t false := by
  have h1 : isFollowingTruthy c t = false := by simp [isFollowingTruthy, h]
  constructor
  · simp [renderFollowButton, h1, isFollowingTruthy_setEntry_self]
  · simp [renderFollowButton, h1, isFollowingTruthy_setEntry_self]

theorem unknown_never_claims_following_witness :
    renderFollowButton emptyCache "bill-193-H200" false
      = renderFollowButton (setEntry emptyCache "bill-193-H200" false) "bill-193-H200" false
    ∧ renderFollowButton emptyCache "bill-193-H200" false
      ≠ renderFollowButton (setEntry emptyCache "bill-193-H200" true) "bill-193-H200" false :=
  unknown_never_claims_following emptyCache "bill-193-H200" rfl

/-- C8: when the get-followers RPC rejects, `FollowersTab`'s state is
unchanged — the rendered `UsersCard` items stay empty and
`setFollowerCount` is never invoked; the rejection is absorbed by the
`try`/`catch`, modelled by `fetchFollowers` being a total function. -/
theorem followers_rpc_error_frame (e : String) :
    fetchFollowers (Except.error e) initFollowersTab = initFollowersTab
    ∧ followersTabItems (fetchFollowers (Except.error e) initFollowersTab) = []
    ∧ (fetchFollowers (Except.error e) initFollowersTab).followerCount = none :=
  ⟨rfl, rfl, rfl⟩

theorem followers_rpc_error_frame_witness :
    fetchFollowers (Except.error "boom") initFollowersTab = initFollowersTab
    ∧ followersTabItems (fetchFollowers (Except.error "boom") initFollowersTab) = []
    ∧ (fetchFollowers (Except.error "boom") initFollowersTab).followerCount = none :=
  followers_rpc_error_frame "boom"

/-- C9: with followers `["u2", "u3"]` from the RPC-side query and the
user's own follow set `{"u3"}`, the collection-group `FollowersTab`
renders `u2` with `alreadyFollowing = false` and `u3` with
`alreadyFollowing = true`, combining the two results client-side. -/
theorem followers_tab_combines_results :
    renderedFollowers [⟨"u2"⟩, ⟨"u3"⟩] ["u3"]
      = [(⟨"u2"⟩, false), (⟨"u3"⟩, true)] := by
  decide

/-- C10 counterexample: realizable trace of `followingTabStep` in which a
populated bills list is replaced by a later-applied fetch. Bills list
starts `[]`; two query invocations Q0 and Q1 are created at that point
(both closures capture `[]`) while the store holds bills H100 and H200;
Q0 applies `[H100, H200]`; the user unfollows H100 (list reset to `[]`);
a refetch created after the unfollow (closure captures `[]`, store now
without H100) applies `[H200]`; finally Q1's slow response applies: its
closure guard `[].length === 0` passes and it replaces the populated
`[H200]` with `[H100, H200]`, resurrecting the unfollowed bill. -/
theorem following_tab_stale_fetch_replaces :
    (followingTabStep (FollowingTabEvent.billsQueryDone [] [⟨193, "H200"⟩])
        (followingTabStep FollowingTabEvent.unfollowBill
          (followingTabStep
            (FollowingTabEvent.billsQueryDone [] [⟨193, "H100"⟩, ⟨193, "H200"⟩])
            ⟨[], []⟩))).billsFollowing = [⟨193, "H200"⟩]
    ∧ (followingTabStep (FollowingTabEvent.billsQueryDone [] [⟨193, "H100"⟩, ⟨193, "H200"⟩])
        (followingTabStep (FollowingTabEvent.billsQueryDone [] [⟨193, "H200"⟩])
          (followingTabStep FollowingTabEvent.unfollowBill
            (followingTabStep
              (FollowingTabEvent.billsQueryDone [] [⟨193, "H100"⟩, ⟨193, "H200"⟩])
              ⟨[], []⟩)))).billsFollowing = [⟨193, "H100"⟩, ⟨193, "H200"⟩] := by
  refine ⟨by decide, by decide⟩

/-- C10 (amended): a completed query applies its fetched list exactly
when the closure-captured list was empty and the fetched list is
non-empty, replacing (never merging) the current list; an invocation
whose closure captured a non-empty list, or that fetched an empty list,
leaves the state unchanged; and the unfollow handlers reset the lists to
`[]`. Emptiness of the captured list — not of the currently held list —
decides application, so only fetches whose closure saw a non-empty list
are guaranteed not to overwrite. -/
theorem following_tab_captured_guard (s : FollowingTabState)
    (capB bf : List BillItem) (capU uf : List UserItem) :
    (capB ≠ [] → followingTabStep (FollowingTabEvent.billsQueryDone capB bf) s = s)
    ∧ (capU ≠ [] → followingTabStep (FollowingTabEvent.usersQueryDone capU uf) s = s)
    ∧ (bf = [] → followingTabStep (FollowingTabEvent.billsQueryDone capB bf) s = s)
    ∧ (uf = [] → followingTabStep (FollowingTabEvent.usersQueryDone capU uf) s = s)
    ∧ (capB = [] → bf ≠ [] →
        (followingTabStep (FollowingTabEvent.billsQueryDone capB bf) s).billsFollowing = bf)
    ∧ (capU = [] → uf ≠ [] →
        (followingTabStep (FollowingTabEvent.usersQueryDone capU uf) s).usersFollowing = uf)
    ∧ (followingTabStep FollowingTabEvent.unfollowBill s).billsFollowing = []
    ∧ (followingTabStep FollowingTabEvent.unfollowUser s).usersFollowing = [] := by
  refine ⟨?_, ?_, ?_, ?_, ?_, ?_, rfl, rfl⟩
  · intro h
    simp [followingTabStep, List.length_eq_zero, h]
  · intro h
    simp [followingTabStep, List.length_eq_zero, h]
  · intro h
    simp [followingTabStep, h]
  · intro h
    simp [followingTabStep, h]
  · intro h hf
    simp [followingTabStep, List.length_eq_zero, h, hf]
  · intro h hf
    simp [followingTabStep, List.length_eq_zero, h, hf]

theorem following_tab_captured_guard_witness :
    followingTabStep (FollowingTabEvent.billsQueryDone [⟨193, "H100"⟩] [⟨5, "S33"⟩])
        ⟨[⟨193, "H100"⟩], []⟩
      = (⟨[⟨193, "H100"⟩], []⟩ : FollowingTabState)
    ∧ (followingTabStep (FollowingTabEvent.billsQueryDone [] [⟨5, "S33"⟩])
        ⟨[], []⟩).billsFollowing = [⟨5, "S33"⟩]
    ∧ (followingTabStep FollowingTabEvent.unfollowBill
        ⟨[⟨193, "H100"⟩], []⟩).billsFollowing = [] :=
  ⟨(following_tab_captured_guard ⟨[⟨193, "H100"⟩], []⟩ [⟨193, "H100"⟩] [⟨5, "S33"⟩]
      [] []).1 (by decide),
   (following_tab_captured_guard ⟨[], []⟩ [] [⟨5, "S33"⟩] [] []).2.2.2.2.1 rfl (by decide),
   (following_tab_captured_guard ⟨[⟨193, "H100"⟩], []⟩ [] [] [] []).2.2.2.2.2.2.1⟩

end Maple
